import Mathlib

/-!
Shallow embedding of the pyclimacell client library
(src/pyclimacell/pyclimacell.py, src/pyclimacell/const.py,
src/pyclimacell/exceptions.py).

Conventions of the embedding:

* Instants and durations are modelled in integer seconds.  A Python
  `timedelta` becomes an `Int`; `timedelta(days=1)` is 86400,
  `timedelta(hours=1)` is 3600, and so on.
* A Python `datetime` is a wall-clock value together with an optional
  UTC offset (the `tzinfo`).  Python raises `TypeError` when a naive
  datetime (no offset) is compared with or subtracted from an aware one;
  the embedding mirrors that through `Except`.
* Fallible Python code (raising exceptions) is embedded as
  `Except PyErr`.
-/

/-- Kinds of Python exceptions that the embedded code can raise:
`ValueError` (validation failures), `TypeError` (naive/aware datetime
mixing), `KeyError` (dict lookup misses), and the library exception
`InvalidTimestep` from src/pyclimacell/exceptions.py via
src/pyclimacell/pyclimacell.py. -/
inductive PyErr where
  | valueError
  | typeError
  | keyError
  | invalidTimestep
  deriving DecidableEq, Repr

deriving instance DecidableEq for Except

/-- Model of a Python `datetime`: a wall-clock reading in seconds plus an
optional UTC offset in seconds (`tz = none` models a naive datetime). -/
structure PyDT where
  wall : Int
  tz : Option Int
  deriving DecidableEq, Repr

/-- The UTC instant denoted by a datetime.  For an aware datetime the
instant is the wall clock minus the UTC offset; a naive datetime is read
at face value. -/
def dtInstant (d : PyDT) : Int :=
  match d.tz with
  | some off => d.wall - off
  | none => d.wall

/-- Python comparison `a < b` on datetimes: naive pairs compare wall
clocks, aware pairs compare instants, and mixing naive with aware raises
`TypeError`. -/
def pyLt (a b : PyDT) : Except PyErr Bool :=
  match a.tz, b.tz with
  | none, none => .ok (decide (a.wall < b.wall))
  | some _, some _ => .ok (decide (dtInstant a < dtInstant b))
  | _, _ => .error .typeError

/-- Python subtraction `a - b` on datetimes, yielding a duration in
seconds; mixing naive with aware raises `TypeError`. -/
def pySub (a b : PyDT) : Except PyErr Int :=
  match a.tz, b.tz with
  | none, none => .ok (a.wall - b.wall)
  | some _, some _ => .ok (dtInstant a - dtInstant b)
  | _, _ => .error .typeError

/-- Embedding of `dt_to_utc` (pyclimacell.py lines 99-103): if the input
datetime has a timezone defined, convert it to UTC (same instant, offset
zero); a naive datetime is returned unchanged. -/
def dt_to_utc (d : PyDT) : PyDT :=
  match d.tz with
  | some _ => { wall := dtInstant d, tz := some 0 }
  | none => d

/-- The `start_time` block of `validate_timerange` (pyclimacell.py lines
472-481): when a start time is given, raise `ValueError` if it is before
now, then raise `ValueError` if `start_time - now + duration` exceeds the
max age. -/
def checkStart (st : Option PyDT) (nowDT : PyDT) (duration age_delta : Int) :
    Except PyErr Unit :=
  match st with
  | none => .ok ()
  | some s =>
    match pyLt s nowDT with
    | .error e => .error e
    | .ok true => .error .valueError
    | .ok false =>
      match pySub s nowDT with
      | .error e => .error e
      | .ok diff =>
        if diff + duration > age_delta then .error .valueError else .ok ()

/-- The `end_time` block of `validate_timerange` (pyclimacell.py lines
483-493): when an end time is given, raise `ValueError` if it is after
now, then raise `ValueError` if `now - end_time - duration` is below the
max age. -/
def checkEnd (et : Option PyDT) (nowDT : PyDT) (duration age_delta : Int) :
    Except PyErr Unit :=
  match et with
  | none => .ok ()
  | some e =>
    match pyLt nowDT e with
    | .error err => .error err
    | .ok true => .error .valueError
    | .ok false =>
      match pySub nowDT e with
      | .error err => .error err
      | .ok diff =>
        if diff - duration < age_delta then .error .valueError else .ok ()

/-- Embedding of `validate_timerange` (pyclimacell.py lines 447-501).
`now` is the wall clock of the naive `datetime.utcnow()` taken inside the
function.  `age_delta` is the seconds of `timedelta(**max_age)` and
`interval_delta` the seconds of `timedelta(**max_interval)` when a max
interval is supplied.  The guard `if interval_delta and duration > ...`
uses Python truthiness: a zero `timedelta` is falsy, hence the `iv != 0`
conjunct. -/
def validate_timerange (st et : Option PyDT) (duration age_delta : Int)
    (interval_delta : Option Int) (now : Int) : Except PyErr Unit :=
  let nowDT : PyDT := ⟨now, none⟩
  if interval_delta.elim false (fun iv => iv != 0 && decide (duration > iv)) then
    .error .valueError
  else
    match checkStart st nowDT duration age_delta with
    | .error e => .error e
    | .ok _ =>
      match checkEnd et nowDT duration age_delta with
      | .error e => .error e
      | .ok _ =>
        if duration > age_delta then .error .valueError else .ok ()

/-- The validation pipeline as run by `ClimaCellV3._forecast` (lines
590-592) and `ClimaCellV3._historical` (lines 651-653): caller-supplied
times pass through `dt_to_utc` and then into `validate_timerange`. -/
def v3_validate_call (st et : Option PyDT) (duration age_delta : Int)
    (interval_delta : Option Int) (now : Int) : Except PyErr Unit :=
  validate_timerange (st.map dt_to_utc) (et.map dt_to_utc) duration age_delta
    interval_delta now

/-- Modelled from the claim wording (spec section 4.3 shape B): the
rejection condition as the specification states it, with no allowance for
the Python truthiness of a zero max interval.  Times are naive UTC wall
clocks. -/
def c1_reject_spec (st et : Option Int) (duration age : Int)
    (interval : Option Int) (now : Int) : Bool :=
  interval.elim false (fun iv => decide (duration > iv)) ||
  st.elim false (fun s => decide (s < now)) ||
  st.elim false (fun s => decide (s - now + duration > age)) ||
  et.elim false (fun e => decide (e > now)) ||
  et.elim false (fun e => decide (now - e - duration < age)) ||
  decide (duration > age)

/-- Rejection condition actually implemented by `validate_timerange` for
naive inputs: identical to the claim wording except that a maximum
interval of zero seconds is falsy in Python and therefore never checked. -/
def c1_reject_code (st et : Option Int) (duration age : Int)
    (interval : Option Int) (now : Int) : Bool :=
  interval.elim false (fun iv => iv != 0 && decide (duration > iv)) ||
  st.elim false (fun s => decide (s < now)) ||
  st.elim false (fun s => decide (s - now + duration > age)) ||
  et.elim false (fun e => decide (e > now)) ||
  et.elim false (fun e => decide (now - e - duration < age)) ||
  decide (duration > age)

/-- Measurement suffix constants (const.py lines 224-226). -/
def MIN : String := "Min"

def MAX : String := "Max"

def AVG : String := "Avg"

/-- Embedding of ALL_MEASUREMENTS (const.py line 235). -/
def ALL_MEASUREMENTS : List String := [MIN, MAX, AVG]

/-- Embedding of NO_AVG (const.py line 236). -/
def NO_AVG : List String := [MIN, MAX]

def TYPE_WEATHER : String := "weather"

def TYPE_POLLEN : String := "pollen"

def TYPE_AIR_QUALITY : String := "air_quality"

def TYPE_SOLAR : String := "solar"

def TYPE_PRECIPITATION : String := "precipitation"

/-- One value of the FIELDS_V4 table (const.py lines 241-437): the Python
dict with keys "timestep" (a two-element list, embedded as tsMin and
tsMax), "measurements" and "type". -/
structure FieldSpec where
  tsMin : Int
  tsMax : Int
  measurements : List String
  ftype : String
  deriving DecidableEq, Repr

/-- Embedding of the FIELDS_V4 catalog (const.py lines 241-437), in source
order. -/
def FIELDS_V4 : List (String × FieldSpec) := [
  ("temperature", ⟨-6, 360, ALL_MEASUREMENTS, TYPE_WEATHER⟩),
  ("temperatureApparent", ⟨-6, 360, ALL_MEASUREMENTS, TYPE_WEATHER⟩),
  ("dewPoint", ⟨-6, 360, ALL_MEASUREMENTS, TYPE_WEATHER⟩),
  ("humidity", ⟨-6, 360, ALL_MEASUREMENTS, TYPE_WEATHER⟩),
  ("windSpeed", ⟨-6, 360, ALL_MEASUREMENTS, TYPE_WEATHER⟩),
  ("windDirection", ⟨-6, 360, [AVG], TYPE_WEATHER⟩),
  ("windGust", ⟨-6, 360, ALL_MEASUREMENTS, TYPE_WEATHER⟩),
  ("pressureSurfaceLevel", ⟨-6, 360, ALL_MEASUREMENTS, TYPE_WEATHER⟩),
  ("pressureSeaLevel", ⟨-6, 360, ALL_MEASUREMENTS, TYPE_WEATHER⟩),
  ("precipitationIntensity", ⟨-6, 360, ALL_MEASUREMENTS, TYPE_PRECIPITATION⟩),
  ("precipitationProbability", ⟨0, 360, ALL_MEASUREMENTS, TYPE_PRECIPITATION⟩),
  ("precipitationType", ⟨-6, 108, [], TYPE_PRECIPITATION⟩),
  ("hailBinary", ⟨-6, 48, [], TYPE_PRECIPITATION⟩),
  ("solarGHI", ⟨-6, 360, ALL_MEASUREMENTS, TYPE_SOLAR⟩),
  ("solarDNI", ⟨-6, 360, ALL_MEASUREMENTS, TYPE_SOLAR⟩),
  ("solarDHI", ⟨-6, 360, ALL_MEASUREMENTS, TYPE_SOLAR⟩),
  ("visibility", ⟨-6, 360, ALL_MEASUREMENTS, TYPE_WEATHER⟩),
  ("cloudCover", ⟨-6, 360, ALL_MEASUREMENTS, TYPE_WEATHER⟩),
  ("cloudBase", ⟨-6, 360, ALL_MEASUREMENTS, TYPE_WEATHER⟩),
  ("cloudCeiling", ⟨-6, 360, ALL_MEASUREMENTS, TYPE_WEATHER⟩),
  ("weatherCode", ⟨-6, 360, NO_AVG, TYPE_WEATHER⟩),
  ("particulateMatter25", ⟨-6, 108, ALL_MEASUREMENTS, TYPE_AIR_QUALITY⟩),
  ("particulateMatter10", ⟨-6, 108, ALL_MEASUREMENTS, TYPE_AIR_QUALITY⟩),
  ("pollutantO3", ⟨-6, 108, ALL_MEASUREMENTS, TYPE_AIR_QUALITY⟩),
  ("pollutantNO2", ⟨-6, 108, ALL_MEASUREMENTS, TYPE_AIR_QUALITY⟩),
  ("pollutantCO", ⟨-6, 108, ALL_MEASUREMENTS, TYPE_AIR_QUALITY⟩),
  ("pollutantSO2", ⟨-6, 108, ALL_MEASUREMENTS, TYPE_AIR_QUALITY⟩),
  ("mepIndex", ⟨-6, 108, ALL_MEASUREMENTS, TYPE_AIR_QUALITY⟩),
  ("mepPrimaryPollutant", ⟨-6, 108, [], TYPE_AIR_QUALITY⟩),
  ("mepHealthConcern", ⟨-6, 108, ALL_MEASUREMENTS, TYPE_AIR_QUALITY⟩),
  ("epaIndex", ⟨-6, 108, ALL_MEASUREMENTS, TYPE_AIR_QUALITY⟩),
  ("epaPrimaryPollutant", ⟨-6, 108, [], TYPE_AIR_QUALITY⟩),
  ("epaHealthConcern", ⟨-6, 108, ALL_MEASUREMENTS, TYPE_AIR_QUALITY⟩),
  ("treeIndex", ⟨-6, 108, ALL_MEASUREMENTS, TYPE_POLLEN⟩),
  ("grassIndex", ⟨-6, 108, ALL_MEASUREMENTS, TYPE_POLLEN⟩),
  ("grassGrassIndex", ⟨-6, 108, ALL_MEASUREMENTS, TYPE_POLLEN⟩),
  ("weedIndex", ⟨-6, 108, ALL_MEASUREMENTS, TYPE_POLLEN⟩),
  ("weedRagweedIndex", ⟨-6, 108, ALL_MEASUREMENTS, TYPE_POLLEN⟩),
  ("fireIndex", ⟨-6, 0, ALL_MEASUREMENTS, TYPE_WEATHER⟩)]

/-- Python dict lookup FIELDS_V4[name], as an Option. -/
def fieldsV4_lookup (name : String) : Option FieldSpec :=
  (FIELDS_V4.find? (fun p => p.1 == name)).map (fun p => p.2)

/-- Iteration order of the FIELDS_V4 dict (its insertion order). -/
def fieldNamesV4 : List String := FIELDS_V4.map (fun p => p.1)

/-- Embedding of `process_v4_fields` (pyclimacell.py lines 47-96): drop
requested fields absent from the catalog, then keep the survivors
according to the timestep branch; an unrecognized positive timestep
raises `InvalidTimestep`.  The `none` branches of the inner matches are
unreachable because the predicate is only applied to fields already
validated against the catalog. -/
def process_v4_fields (fields : List String) (timestep : Int) :
    Except PyErr (List String) :=
  let valid_fields := fields.filter (fun f => (fieldsV4_lookup f).isSome)
  if timestep == 86400 then
    .ok (valid_fields.filter (fun f =>
      match fieldsV4_lookup f with
      | some s => s.tsMax == 360
      | none => false))
  else if timestep == 3600 then
    .ok (valid_fields.filter (fun f =>
      match fieldsV4_lookup f with
      | some s => decide (s.tsMax ≥ 108)
      | none => false))
  else if timestep == 1800 || timestep == 900 || timestep == 300 || timestep == 60 then
    .ok (valid_fields.filter (fun f =>
      match fieldsV4_lookup f with
      | some s => decide (s.tsMax ≥ 6)
      | none => false))
  else if timestep == 0 then
    .ok (valid_fields.filter (fun f =>
      match fieldsV4_lookup f with
      | some s => decide (s.tsMin ≤ 0) && decide (s.tsMax ≥ 0)
      | none => false))
  else if timestep < 0 then
    .ok (valid_fields.filter (fun f =>
      match fieldsV4_lookup f with
      | some s => decide (s.tsMin < 0)
      | none => false))
  else .error .invalidTimestep

/-- Single-pass keep predicate of the v4 filter: a field survives
`process_v4_fields` at a recognized timestep exactly when it is in the
catalog and its timestep bounds pass the branch test. -/
def v4_keep (timestep : Int) (f : String) : Bool :=
  match fieldsV4_lookup f with
  | none => false
  | some s =>
    if timestep == 86400 then s.tsMax == 360
    else if timestep == 3600 then decide (s.tsMax ≥ 108)
    else if timestep == 1800 || timestep == 900 || timestep == 300 || timestep == 60 then
      decide (s.tsMax ≥ 6)
    else if timestep == 0 then decide (s.tsMin ≤ 0) && decide (s.tsMax ≥ 0)
    else if timestep < 0 then decide (s.tsMin < 0)
    else false

/-- Timesteps on which the v4 filter does not raise `InvalidTimestep`. -/
def v4_timestep_known (timestep : Int) : Bool :=
  timestep == 86400 || timestep == 3600 || timestep == 1800 || timestep == 900 ||
  timestep == 300 || timestep == 60 || decide (timestep ≤ 0)

/-- Python set difference list(set a - set b), up to the arbitrary
iteration order of a set: the members are those of a that are not in b,
each once. -/
def pySetDiff (a b : List String) : List String :=
  a.dedup.filter (fun x => decide (x ∉ b))

/-- The set logged by pyclimacell.py line 56: requested fields that are
not in the catalog. -/
def v4_removed_invalid (fields : List String) : List String :=
  pySetDiff fields (fields.filter (fun f => (fieldsV4_lookup f).isSome))

/-- The set logged by pyclimacell.py line 94: catalog fields removed
because they are not available at the requested timestep. -/
def v4_removed_inapplicable (fields : List String) (timestep : Int) : List String :=
  match process_v4_fields fields timestep with
  | .ok processed =>
    pySetDiff (fields.filter (fun f => (fieldsV4_lookup f).isSome)) processed
  | .error _ => []

/-- Embedding of `ClimaCellV4.convert_fields_to_measurements`
(pyclimacell.py lines 135-148): a field with fewer than two measurements
passes through unchanged, otherwise it is expanded to one entry per
measurement suffix.  A field absent from the catalog raises `KeyError`
(the Python dict subscript on line 140). -/
def convert_fields_to_measurements : List String → Except PyErr (List String)
  | [] => .ok []
  | f :: rest =>
    match fieldsV4_lookup f with
    | none => .error .keyError
    | some s =>
      match convert_fields_to_measurements rest with
      | .error e => .error e
      | .ok tail =>
        if s.measurements.length < 2 then .ok (f :: tail)
        else .ok (s.measurements.map (fun m => f ++ m) ++ tail)

/-- Python subscript of a FieldSpec (a dict with the string keys
"timestep", "measurements" and "type") by an integer key: always a
`KeyError`.  `ClimaCellV4.available_fields` does exactly this on
pyclimacell.py line 176 (`FIELDS_V4[field][0]`). -/
def entry_getitem_int (_s : FieldSpec) (_k : Int) : Except PyErr Int :=
  .error .keyError

/-- List filtering with a fallible predicate, evaluated left to right as
a Python list comprehension is. -/
def filterE {α : Type} (p : α → Except PyErr Bool) : List α → Except PyErr (List α)
  | [] => .ok []
  | x :: xs =>
    match p x with
    | .error e => .error e
    | .ok b =>
      match filterE p xs with
      | .error e => .error e
      | .ok rest => .ok (if b then x :: rest else rest)

/-- Embedding of `ClimaCellV4.available_fields` (pyclimacell.py lines
150-188), iterating over the whole catalog.  The zero-timestep branch
transcribes the source faithfully: the comprehension on lines 173-177
evaluates `FIELDS_V4[field][0]`, subscripting the field entry dict with
the integer key 0, which raises `KeyError`.  An empty `types` list is
falsy in Python, so it applies no type restriction. -/
def available_fields (timestep : Int) (types : Option (List String)) :
    Except PyErr (List String) :=
  let step1 : Except PyErr (List String) :=
    if timestep == 86400 then
      .ok (fieldNamesV4.filter (fun f =>
        match fieldsV4_lookup f with
        | some s => s.tsMax == 360
        | none => false))
    else if timestep == 3600 then
      .ok (fieldNamesV4.filter (fun f =>
        match fieldsV4_lookup f with
        | some s => decide (s.tsMax ≥ 108)
        | none => false))
    else if timestep == 1800 || timestep == 900 || timestep == 300 || timestep == 60 then
      .ok (fieldNamesV4.filter (fun f =>
        match fieldsV4_lookup f with
        | some s => decide (s.tsMax ≥ 6)
        | none => false))
    else if timestep == 0 then
      filterE (fun f =>
        match fieldsV4_lookup f with
        | some s =>
          match entry_getitem_int s 0 with
          | .error e => .error e
          | .ok v => .ok (decide (v ≤ 0) && decide (s.tsMax ≥ 0))
        | none => .error .keyError) fieldNamesV4
    else if timestep < 0 then
      .ok (fieldNamesV4.filter (fun f =>
        match fieldsV4_lookup f with
        | some s => decide (s.tsMin < 0)
        | none => false))
    else .error .invalidTimestep
  match step1 with
  | .error e => .error e
  | .ok fields =>
    match types with
    | some tl =>
      if tl.isEmpty then .ok fields
      else .ok (fields.filter (fun f =>
        match fieldsV4_lookup f with
        | some s => tl.contains s.ftype
        | none => false))
    | none => .ok fields

/-- V3 endpoint identifiers (const.py lines 11, 17-21). -/
def REALTIME : String := "realtime"

def FORECAST_NOWCAST : String := "nowcast"

def FORECAST_HOURLY : String := "forecast/hourly"

def FORECAST_DAILY : String := "forecast/daily"

def HISTORICAL_CLIMACELL : String := "historical/climacell"

def HISTORICAL_STATION : String := "historical/station"

/-- Embedding of the FIELDS_V3 catalog (const.py lines 30-222), in source
order: each field maps to the list of endpoints where it is obtainable. -/
def FIELDS_V3 : List (String × List String) := [
  ("temp", [REALTIME, FORECAST_NOWCAST, FORECAST_HOURLY, FORECAST_DAILY,
    HISTORICAL_CLIMACELL, HISTORICAL_STATION]),
  ("feels_like", [REALTIME, FORECAST_NOWCAST, FORECAST_HOURLY, FORECAST_DAILY,
    HISTORICAL_CLIMACELL, HISTORICAL_STATION]),
  ("dewpoint", [REALTIME, FORECAST_NOWCAST, FORECAST_HOURLY,
    HISTORICAL_CLIMACELL, HISTORICAL_STATION]),
  ("humidity", [REALTIME, FORECAST_NOWCAST, FORECAST_HOURLY, FORECAST_DAILY,
    HISTORICAL_CLIMACELL, HISTORICAL_STATION]),
  ("wind_speed", [REALTIME, FORECAST_NOWCAST, FORECAST_HOURLY, FORECAST_DAILY,
    HISTORICAL_CLIMACELL, HISTORICAL_STATION]),
  ("wind_direction", [REALTIME, FORECAST_NOWCAST, FORECAST_HOURLY, FORECAST_DAILY,
    HISTORICAL_CLIMACELL, HISTORICAL_STATION]),
  ("wind_gust", [REALTIME, FORECAST_NOWCAST, FORECAST_HOURLY,
    HISTORICAL_CLIMACELL, HISTORICAL_STATION]),
  ("baro_pressure", [REALTIME, FORECAST_NOWCAST, FORECAST_HOURLY, FORECAST_DAILY,
    HISTORICAL_CLIMACELL, HISTORICAL_STATION]),
  ("precipitation", [REALTIME, FORECAST_NOWCAST, FORECAST_HOURLY, FORECAST_DAILY,
    HISTORICAL_CLIMACELL, HISTORICAL_STATION]),
  ("precipitation_type", [REALTIME, FORECAST_NOWCAST, FORECAST_HOURLY,
    HISTORICAL_CLIMACELL, HISTORICAL_STATION]),
  ("precipitation_probability", [FORECAST_HOURLY, FORECAST_DAILY]),
  ("precipitation_accumulation", [FORECAST_DAILY]),
  ("sunrise", [REALTIME, FORECAST_NOWCAST, FORECAST_HOURLY, FORECAST_DAILY,
    HISTORICAL_CLIMACELL]),
  ("sunset", [REALTIME, FORECAST_NOWCAST, FORECAST_HOURLY, FORECAST_DAILY,
    HISTORICAL_CLIMACELL]),
  ("visibility", [REALTIME, FORECAST_NOWCAST, FORECAST_HOURLY, FORECAST_DAILY,
    HISTORICAL_CLIMACELL, HISTORICAL_STATION]),
  ("cloud_cover", [REALTIME, FORECAST_NOWCAST, FORECAST_HOURLY,
    HISTORICAL_CLIMACELL, HISTORICAL_STATION]),
  ("cloud_base", [REALTIME, FORECAST_NOWCAST, FORECAST_HOURLY,
    HISTORICAL_CLIMACELL, HISTORICAL_STATION]),
  ("cloud_ceiling", [REALTIME, FORECAST_NOWCAST, FORECAST_HOURLY,
    HISTORICAL_CLIMACELL, HISTORICAL_STATION]),
  ("surface_shortwave_radiation", [REALTIME, FORECAST_NOWCAST, FORECAST_HOURLY,
    HISTORICAL_CLIMACELL]),
  ("moon_phase", [REALTIME, FORECAST_HOURLY]),
  ("weather_code", [REALTIME, FORECAST_NOWCAST, FORECAST_HOURLY, FORECAST_DAILY,
    HISTORICAL_CLIMACELL]),
  ("weather_groups", [HISTORICAL_STATION]),
  ("pm25", [REALTIME, FORECAST_NOWCAST, FORECAST_HOURLY, HISTORICAL_CLIMACELL]),
  ("pm10", [REALTIME, FORECAST_NOWCAST, FORECAST_HOURLY, HISTORICAL_CLIMACELL]),
  ("o3", [REALTIME, FORECAST_NOWCAST, FORECAST_HOURLY, HISTORICAL_CLIMACELL]),
  ("no2", [REALTIME, FORECAST_NOWCAST, FORECAST_HOURLY, HISTORICAL_CLIMACELL]),
  ("co", [REALTIME, FORECAST_NOWCAST, FORECAST_HOURLY, HISTORICAL_CLIMACELL]),
  ("so2", [REALTIME, FORECAST_NOWCAST, FORECAST_HOURLY, HISTORICAL_CLIMACELL]),
  ("epa_aqi", [REALTIME, FORECAST_NOWCAST, FORECAST_HOURLY, HISTORICAL_CLIMACELL]),
  ("epa_primary_pollutant", [REALTIME, FORECAST_NOWCAST, FORECAST_HOURLY,
    HISTORICAL_CLIMACELL]),
  ("epa_health_concern", [REALTIME, FORECAST_NOWCAST, FORECAST_HOURLY,
    HISTORICAL_CLIMACELL]),
  ("china_aqi", [REALTIME, FORECAST_NOWCAST, FORECAST_HOURLY, HISTORICAL_CLIMACELL]),
  ("china_primary_pollutant", [REALTIME, FORECAST_NOWCAST, FORECAST_HOURLY,
    HISTORICAL_CLIMACELL]),
  ("china_health_concern", [REALTIME, FORECAST_NOWCAST, FORECAST_HOURLY,
    HISTORICAL_CLIMACELL]),
  ("pollen_tree", [REALTIME, FORECAST_NOWCAST, FORECAST_HOURLY, HISTORICAL_CLIMACELL]),
  ("pollen_weed", [REALTIME, FORECAST_NOWCAST, FORECAST_HOURLY, HISTORICAL_CLIMACELL]),
  ("pollen_grass", [REALTIME, FORECAST_NOWCAST, FORECAST_HOURLY, HISTORICAL_CLIMACELL]),
  ("road_risk_score", [REALTIME, FORECAST_NOWCAST, FORECAST_HOURLY,
    HISTORICAL_CLIMACELL]),
  ("road_risk_confidence", [REALTIME, FORECAST_NOWCAST, FORECAST_HOURLY,
    HISTORICAL_CLIMACELL]),
  ("road_risk_conditions", [REALTIME, FORECAST_NOWCAST, FORECAST_HOURLY,
    HISTORICAL_CLIMACELL]),
  ("fire_index", [REALTIME, HISTORICAL_CLIMACELL])]

/-- Python dict lookup FIELDS_V3[name], as an Option. -/
def fieldsV3_lookup (name : String) : Option (List String) :=
  (FIELDS_V3.find? (fun p => p.1 == name)).map (fun p => p.2)

/-- The two filtering comprehensions of `process_v3_fields`
(pyclimacell.py lines 432 and 437): drop fields absent from the catalog,
then keep those whose endpoint list contains the target endpoint. -/
def process_v3_fields_list (fields : List String) (endpoint : String) : List String :=
  let valid_fields := fields.filter (fun f => (fieldsV3_lookup f).isSome)
  valid_fields.filter (fun f =>
    match fieldsV3_lookup f with
    | some eps => eps.contains endpoint
    | none => false)

/-- Embedding of `process_v3_fields` (pyclimacell.py lines 425-444): the
filtered fields joined with commas into the query-string value. -/
def process_v3_fields (fields : List String) (endpoint : String) : String :=
  String.intercalate "," (process_v3_fields_list fields endpoint)

/-- Single-pass keep predicate of the v3 filter. -/
def v3_keep (endpoint : String) (f : String) : Bool :=
  match fieldsV3_lookup f with
  | some eps => eps.contains endpoint
  | none => false

/-- The set logged by pyclimacell.py line 435: requested fields that are
not in the v3 catalog. -/
def v3_removed_invalid (fields : List String) : List String :=
  pySetDiff fields (fields.filter (fun f => (fieldsV3_lookup f).isSome))

/-- The set logged by pyclimacell.py line 442: catalog fields removed
because they are not available at the requested endpoint. -/
def v3_removed_inapplicable (fields : List String) (endpoint : String) : List String :=
  pySetDiff (fields.filter (fun f => (fieldsV3_lookup f).isSome))
    (process_v3_fields_list fields endpoint)

/-- Python str.lower over the character list of the string (ASCII data
here), written so that it evaluates by kernel reduction. -/
def pyLower (s : String) : String := String.mk (s.data.map Char.toLower)

/-- Embedding of the unit-system handling in `ClimaCellV4.__init__`
(pyclimacell.py lines 118-127): the selector is lowercased, must be one
of metric, imperial, si or us (else `ValueError`), and si and us are
rewritten to metric and imperial; the stored value is the lowercased
result. -/
def climacellV4_unit_system (unit_system : String) : Except PyErr String :=
  let l := pyLower unit_system
  if !(l == "metric" || l == "imperial" || l == "si" || l == "us") then
    .error .valueError
  else if l == "si" then .ok "metric"
  else if l == "us" then .ok "imperial"
  else .ok l

/-- Embedding of the unit-system handling in `ClimaCellV3.__init__`
(pyclimacell.py lines 516-522): the lowercased selector must be us or si
(else `ValueError`) and is stored lowercased. -/
def climacellV3_unit_system (unit_system : String) : Except PyErr String :=
  let l := pyLower unit_system
  if !(l == "us" || l == "si") then .error .valueError
  else .ok l

/-- Outcome of one HTTP round trip, as classified by the clients: success
with the parsed payload, or one of the failure kinds raised in
pyclimacell.py lines 200-229 and 553-563 (exceptions.py). -/
inductive ApiOutcome (α : Type) where
  | success (payload : α)
  | malformedRequest
  | invalidAPIKey
  | rateLimited
  | unknownErr
  | cantConnect
  deriving DecidableEq, Repr

/-- What the transport hands back: an HTTP response with a status code
and a parsed payload, or a transport-level connection failure
(aiohttp ClientConnectionError, no response at all). -/
inductive HttpResult (α : Type) where
  | response (status : Nat) (payload : α)
  | connectionError
  deriving DecidableEq, Repr

/-- Embedding of the response classification in `ClimaCellV4._call_api`
(pyclimacell.py lines 190-229): status 200 returns the payload, 400, 401
and 403, and 429 raise the dedicated exceptions, any other status raises
`UnknownException`, and a connection failure raises
`CantConnectException`. -/
def climacellV4_classify {α : Type} : HttpResult α → ApiOutcome α
  | .connectionError => .cantConnect
  | .response status payload =>
    if status == 200 then .success payload
    else if status == 400 then .malformedRequest
    else if status == 401 || status == 403 then .invalidAPIKey
    else if status == 429 then .rateLimited
    else .unknownErr

/-- Embedding of the response classification in `ClimaCellV3._call_api`
(pyclimacell.py lines 531-563).  The GET is issued with
`raise_for_status=True`, and aiohttp raises `ClientResponseError` exactly
when the status is 400 or above; the handler then dispatches on the
status.  A response below 400 is returned as success. -/
def climacellV3_classify {α : Type} : HttpResult α → ApiOutcome α
  | .connectionError => .cantConnect
  | .response status payload =>
    if status ≥ 400 then
      if status == 400 then .malformedRequest
      else if status == 401 || status == 403 then .invalidAPIKey
      else if status == 429 then .rateLimited
      else .unknownErr
    else .success payload

/-- Modelled from the spec (section 4.5): 200 success with payload, 400
malformed request, 401 or 403 invalid credentials, 429 rate limited, any
other non-200 status unknown, connection failure cannot-connect. -/
def spec_classify {α : Type} : HttpResult α → ApiOutcome α
  | .connectionError => .cantConnect
  | .response status payload =>
    if status == 200 then .success payload
    else if status == 400 then .malformedRequest
    else if status == 401 || status == 403 then .invalidAPIKey
    else if status == 429 then .rateLimited
    else .unknownErr

/-- The request-shaping part of `ClimaCellV4._forecast` (pyclimacell.py
lines 240-267) that runs before any network activity: the filtered and
measurement-expanded field list and the timestep body parameter.  The
start and end time parameters are independent of the field pipeline and
are omitted here. -/
structure V4ForecastRequest where
  fields : List String
  timestep_value : String
  deriving DecidableEq, Repr

/-- The timestep dispatch of `ClimaCellV4._forecast` (pyclimacell.py
lines 255-267). -/
def v4_timestep_value (timestep : Int) : Except PyErr String :=
  if timestep == 86400 then .ok "1d"
  else if timestep == 3600 then .ok "1h"
  else if timestep == 1800 || timestep == 900 || timestep == 300 || timestep == 60 then
    .ok (toString (timestep / 60) ++ "m")
  else .error .invalidTimestep

/-- Request building of `ClimaCellV4._forecast`: the network call
(`_call_api`, line 279) is reached only when this produces a value. -/
def v4_forecast_request (fields : List String) (timestep : Int) :
    Except PyErr V4ForecastRequest :=
  match process_v4_fields fields timestep with
  | .error e => .error e
  | .ok pf =>
    match convert_fields_to_measurements pf with
    | .error e => .error e
    | .ok fl =>
      match v4_timestep_value timestep with
      | .error e => .error e
      | .ok ts => .ok ⟨fl, ts⟩

theorem checkStart_none (nowDT : PyDT) (d a : Int) :
    checkStart none nowDT d a = .ok () := rfl

theorem checkEnd_none (nowDT : PyDT) (d a : Int) :
    checkEnd none nowDT d a = .ok () := rfl

theorem checkStart_naive (w now d a : Int) :
    checkStart (some ⟨w, none⟩) ⟨now, none⟩ d a
      = (if w < now then .error .valueError
         else if w - now + d > a then .error .valueError else .ok ()) := by
  by_cases h : w < now <;> simp [checkStart, pyLt, pySub, dtInstant, h]

theorem checkEnd_naive (w now d a : Int) :
    checkEnd (some ⟨w, none⟩) ⟨now, none⟩ d a
      = (if w > now then .error .valueError
         else if now - w - d < a then .error .valueError else .ok ()) := by
  by_cases h : now < w <;>
    simp [checkEnd, pyLt, pySub, dtInstant, h, gt_iff_lt]

theorem validate_naive_eq (st et : Option Int) (duration age : Int)
    (interval : Option Int) (now : Int) :
    validate_timerange (st.map (fun w => ⟨w, none⟩)) (et.map (fun w => ⟨w, none⟩))
      duration age interval now
      = (if c1_reject_code st et duration age interval now then
          .error .valueError else .ok ()) := by
  rcases st with _ | s <;> rcases et with _ | e <;> rcases interval with _ | iv <;>
    simp only [validate_timerange, checkStart_none, checkEnd_none,
      checkStart_naive, checkEnd_naive, c1_reject_code, Option.map_none',
      Option.map_some', Option.elim_none, Option.elim_some, Bool.false_or,
      Bool.or_eq_true, Bool.and_eq_true, bne_iff_ne, ne_eq,
      decide_eq_true_eq] <;>
    split_ifs <;>
    simp_all only [not_or, gt_iff_lt, not_lt, not_and, not_true, not_false_eq_true,
      false_or, or_false, true_and, and_true, false_and, and_false, true_or,
      or_true] <;>
    first
    | rfl
    | (exfalso; omega)

theorem filter_valid_filter_v4 (fields : List String) (q : FieldSpec → Bool) :
    List.filter (fun f =>
      match fieldsV4_lookup f with
      | some s => q s
      | none => false)
      (fields.filter (fun f => (fieldsV4_lookup f).isSome))
    = fields.filter (fun f =>
      match fieldsV4_lookup f with
      | some s => q s
      | none => false) := by
  rw [List.filter_filter]
  apply List.filter_congr
  intro f _
  cases hl : fieldsV4_lookup f <;> simp [hl]

theorem process_v4_fields_eq_filter (fields : List String) (ts : Int)
    (h : v4_timestep_known ts = true) :
    process_v4_fields fields ts = .ok (fields.filter (v4_keep ts)) := by
  simp only [v4_timestep_known, Bool.or_eq_true, beq_iff_eq, decide_eq_true_eq] at h
  unfold process_v4_fields
  rcases h with ((((((h | h) | h) | h) | h) | h) | h)
  case _ =>
    subst h
    norm_num
    apply List.filter_congr
    intro f _
    cases hl : fieldsV4_lookup f <;> simp [v4_keep, hl]
  case _ =>
    subst h
    norm_num
    apply List.filter_congr
    intro f _
    cases hl : fieldsV4_lookup f <;> simp [v4_keep, hl]
  case _ =>
    subst h
    norm_num
    apply List.filter_congr
    intro f _
    cases hl : fieldsV4_lookup f <;> simp [v4_keep, hl]
  case _ =>
    subst h
    norm_num
    apply List.filter_congr
    intro f _
    cases hl : fieldsV4_lookup f <;> simp [v4_keep, hl]
  case _ =>
    subst h
    norm_num
    apply List.filter_congr
    intro f _
    cases hl : fieldsV4_lookup f <;> simp [v4_keep, hl]
  case _ =>
    subst h
    norm_num
    apply List.filter_congr
    intro f _
    cases hl : fieldsV4_lookup f <;> simp [v4_keep, hl]
  case _ =>
    rcases eq_or_lt_of_le h with h0 | hneg
    · subst h0
      norm_num
      apply List.filter_congr
      intro f _
      cases hl : fieldsV4_lookup f <;> simp [v4_keep, hl]
    · have n1 : (ts == 86400) = false := by simp; omega
      have n2 : (ts == 3600) = false := by simp; omega
      have n3 : (ts == 1800) = false := by simp; omega
      have n4 : (ts == 900) = false := by simp; omega
      have n5 : (ts == 300) = false := by simp; omega
      have n6 : (ts == 60) = false := by simp; omega
      have e0 : (ts == 0) = false := by simp; omega
      rw [if_neg (by simp; omega), if_neg (by simp; omega),
        if_neg (by simp; omega), if_neg (by simp; omega), if_pos hneg,
        filter_valid_filter_v4]
      congr 1
      apply List.filter_congr
      intro f _
      cases hl : fieldsV4_lookup f <;>
        simp [v4_keep, hl, n1, n2, n3, n4, n5, n6, e0, hneg]

theorem process_v4_fields_err (fields : List String) (ts : Int)
    (h : v4_timestep_known ts = false) :
    process_v4_fields fields ts = .error .invalidTimestep := by
  simp only [v4_timestep_known, Bool.or_eq_false_iff, beq_eq_false_iff_ne, ne_eq,
    decide_eq_false_iff_not, not_le] at h
  obtain ⟨⟨⟨⟨⟨⟨h1, h2⟩, h3⟩, h4⟩, h5⟩, h6⟩, h7⟩ := h
  unfold process_v4_fields
  rw [if_neg (by simp; omega), if_neg (by simp; omega), if_neg (by simp; omega),
    if_neg (by simp; omega), if_neg (by omega)]

theorem c1_reject_code_iff (st et : Option Int) (d a : Int) (i : Option Int)
    (n : Int) :
    c1_reject_code st et d a i n = true
    ↔ ((∃ iv, i = some iv ∧ iv ≠ 0 ∧ d > iv) ∨
       (∃ s, st = some s ∧ s < n) ∨
       (∃ s, st = some s ∧ s - n + d > a) ∨
       (∃ e, et = some e ∧ e > n) ∨
       (∃ e, et = some e ∧ n - e - d < a) ∨
       d > a) := by
  rcases st with _ | s <;> rcases et with _ | e <;> rcases i with _ | iv <;>
    simp [c1_reject_code] <;> tauto

/-- C1 (amended): for naive datetimes, `validate_timerange` raises an
error exactly when one of the six rejection conditions holds, where the
max-interval condition additionally requires the interval to be nonzero
(a zero `timedelta` is falsy in Python, so the source guard
`if interval_delta and duration > interval_delta` skips the check). -/
theorem c1_validate_rejects_iff (st et : Option Int) (duration age : Int)
    (interval : Option Int) (now : Int) :
    validate_timerange (st.map fun w => ⟨w, none⟩) (et.map fun w => ⟨w, none⟩)
      duration age interval now ≠ .ok ()
    ↔ ((∃ iv, interval = some iv ∧ iv ≠ 0 ∧ duration > iv) ∨
       (∃ s, st = some s ∧ s < now) ∨
       (∃ s, st = some s ∧ s - now + duration > age) ∨
       (∃ e, et = some e ∧ e > now) ∨
       (∃ e, et = some e ∧ now - e - duration < age) ∨
       duration > age) := by
  rw [validate_naive_eq, ← c1_reject_code_iff]
  by_cases hc : c1_reject_code st et duration age interval now = true <;> simp [hc]

/-- C1 counterexample: with a defined max interval of zero seconds and a
duration of one hour, the claimed rejection condition holds (maxInterval
is defined and duration exceeds it) yet `validate_timerange` accepts,
because the zero interval is falsy in Python and the check is skipped. -/
theorem c1_zero_interval_counterexample :
    c1_reject_spec none none 3600 7200 (some 0) 0 = true ∧
    validate_timerange none none 3600 7200 (some 0) 0 = .ok () :=
  ⟨rfl, rfl⟩

/-- C4: timezone handling is not invariant in the v3 validation pipeline.
A naive UTC start time of 2000 s validates successfully, but the
equivalent offset-bearing time (wall 5600 s at offset +3600 s, the same
instant) is converted by `dt_to_utc` to an aware datetime and then
compared against the naive `datetime.utcnow()`, which raises
`TypeError` instead of producing the same outcome. -/
theorem c4_timezone_divergence :
    v3_validate_call (some ⟨2000, none⟩) none 10 10000 none 1000 = .ok () ∧
    dtInstant ⟨5600, some 3600⟩ = dtInstant ⟨2000, none⟩ ∧
    v3_validate_call (some ⟨5600, some 3600⟩) none 10 10000 none 1000
      = .error .typeError :=
  ⟨rfl, rfl, rfl⟩

theorem mem_v4_output_iff (fields : List String) (ts : Int) (f : String)
    (h : v4_timestep_known ts = true) :
    (∃ out, process_v4_fields fields ts = .ok out ∧ f ∈ out)
    ↔ (f ∈ fields ∧ v4_keep ts f = true) := by
  rw [process_v4_fields_eq_filter fields ts h]
  simp [List.mem_filter]

/-- C2: a requested catalog field survives `process_v4_fields` exactly
according to the per-timestep rules of the source: max bound equal to 360
for one day, at least 108 for one hour, at least 6 for the sub-hourly
steps, min bound at most 0 with max bound at least 0 for the zero
timestep, negative min bound for negative timesteps; any other timestep
fails with `InvalidTimestep`. -/
theorem c2_v4_filter_rules (fields : List String) (ts : Int) (f : String)
    (s : FieldSpec) (hmem : f ∈ fields) (hl : fieldsV4_lookup f = some s) :
    (ts = 86400 →
      ((∃ out, process_v4_fields fields ts = .ok out ∧ f ∈ out) ↔
        s.tsMax = 360)) ∧
    (ts = 3600 →
      ((∃ out, process_v4_fields fields ts = .ok out ∧ f ∈ out) ↔
        s.tsMax ≥ 108)) ∧
    ((ts = 1800 ∨ ts = 900 ∨ ts = 300 ∨ ts = 60) →
      ((∃ out, process_v4_fields fields ts = .ok out ∧ f ∈ out) ↔
        s.tsMax ≥ 6)) ∧
    (ts = 0 →
      ((∃ out, process_v4_fields fields ts = .ok out ∧ f ∈ out) ↔
        (s.tsMin ≤ 0 ∧ s.tsMax ≥ 0))) ∧
    (ts < 0 →
      ((∃ out, process_v4_fields fields ts = .ok out ∧ f ∈ out) ↔
        s.tsMin < 0)) ∧
    (0 < ts → ts ∉ ([60, 300, 900, 1800, 3600, 86400] : List Int) →
      process_v4_fields fields ts = .error .invalidTimestep) := by
  refine ⟨?_, ?_, ?_, ?_, ?_, ?_⟩
  · intro hts
    subst hts
    rw [mem_v4_output_iff fields 86400 f (by decide)]
    simp [v4_keep, hl, hmem]
  · intro hts
    subst hts
    rw [mem_v4_output_iff fields 3600 f (by decide)]
    simp [v4_keep, hl, hmem]
  · intro hts
    rcases hts with hts | hts | hts | hts <;> subst hts <;>
      [rw [mem_v4_output_iff fields 1800 f (by decide)];
       rw [mem_v4_output_iff fields 900 f (by decide)];
       rw [mem_v4_output_iff fields 300 f (by decide)];
       rw [mem_v4_output_iff fields 60 f (by decide)]] <;>
      simp [v4_keep, hl, hmem]
  · intro hts
    subst hts
    rw [mem_v4_output_iff fields 0 f (by decide)]
    simp [v4_keep, hl, hmem]
  · intro hts
    rw [mem_v4_output_iff fields ts f (by simp [v4_timestep_known]; omega)]
    have n1 : (ts == 86400) = false := by simp; omega
    have n2 : (ts == 3600) = false := by simp; omega
    have n3 : (ts == 1800) = false := by simp; omega
    have n4 : (ts == 900) = false := by simp; omega
    have n5 : (ts == 300) = false := by simp; omega
    have n6 : (ts == 60) = false := by simp; omega
    have e0 : (ts == 0) = false := by simp; omega
    simp [v4_keep, hl, hmem, n1, n2, n3, n4, n5, n6, e0, hts]
  · intro h1 h2
    apply process_v4_fields_err
    simp only [List.mem_cons, List.not_mem_nil, or_false, not_or] at h2
    simp only [v4_timestep_known, Bool.or_eq_false_iff, beq_eq_false_iff_ne,
      ne_eq, decide_eq_false_iff_not, not_le]
    omega

theorem c2_v4_filter_rules_witness :
    (∃ out, process_v4_fields ["temperature", "hailBinary"] 86400 = .ok out ∧
      "temperature" ∈ out) ∧
    process_v4_fields ["temperature"] 120 = .error .invalidTimestep :=
  ⟨((c2_v4_filter_rules ["temperature", "hailBinary"] 86400 "temperature"
      ⟨-6, 360, ALL_MEASUREMENTS, TYPE_WEATHER⟩ (by decide) rfl).1 rfl).mpr rfl,
   (c2_v4_filter_rules ["temperature"] 120 "temperature"
      ⟨-6, 360, ALL_MEASUREMENTS, TYPE_WEATHER⟩ (by decide) rfl).2.2.2.2.2
      (by decide) (by decide)⟩

/-- C5: for every field list, a positive timestep that is not one of the
recognized granularities makes `process_v4_fields` fail with
`InvalidTimestep`, and the forecast request builder therefore fails
before producing the request that would be sent over the network. -/
theorem c5_unrecognized_timestep (fields : List String) (ts : Int)
    (h1 : 0 < ts) (h2 : ts ∉ ([60, 300, 900, 1800, 3600, 86400] : List Int)) :
    process_v4_fields fields ts = .error .invalidTimestep ∧
    v4_forecast_request fields ts = .error .invalidTimestep := by
  have hk : v4_timestep_known ts = false := by
    simp only [List.mem_cons, List.not_mem_nil, or_false, not_or] at h2
    simp only [v4_timestep_known, Bool.or_eq_false_iff, beq_eq_false_iff_ne,
      ne_eq, decide_eq_false_iff_not, not_le]
    omega
  have hp := process_v4_fields_err fields ts hk
  refine ⟨hp, ?_⟩
  unfold v4_forecast_request
  rw [hp]

theorem c5_unrecognized_timestep_witness :
    process_v4_fields ["temperature"] 120 = .error .invalidTimestep ∧
    v4_forecast_request ["temperature"] 120 = .error .invalidTimestep :=
  c5_unrecognized_timestep ["temperature"] 120 (by decide) (by decide)

theorem process_v3_fields_list_eq_filter (fields : List String) (endpoint : String) :
    process_v3_fields_list fields endpoint = fields.filter (v3_keep endpoint) := by
  unfold process_v3_fields_list
  rw [List.filter_filter]
  apply List.filter_congr
  intro f _
  cases hl : fieldsV3_lookup f <;> simp [v3_keep, hl]

/-- C3: for both protocols the filter output is exactly the requested
list intersected with the catalog and with the fields applicable to the
target, in request order; the two removal reports contain exactly the
requested fields missing from the catalog and the catalog fields
inapplicable to the target; and at any recognized timestep the v4 filter
returns a value (never an error) no matter the field list, so removal
alone never fails the call. -/
theorem c3_filter_output_and_reports (fields : List String) (endpoint : String)
    (ts : Int) (hts : v4_timestep_known ts = true) :
    process_v3_fields_list fields endpoint = fields.filter (v3_keep endpoint) ∧
    process_v3_fields fields endpoint
      = String.intercalate "," (fields.filter (v3_keep endpoint)) ∧
    (∀ f, f ∈ v3_removed_invalid fields ↔
      (f ∈ fields ∧ fieldsV3_lookup f = none)) ∧
    (∀ f, f ∈ v3_removed_inapplicable fields endpoint ↔
      (f ∈ fields ∧ ∃ eps, fieldsV3_lookup f = some eps ∧ endpoint ∉ eps)) ∧
    process_v4_fields fields ts = .ok (fields.filter (v4_keep ts)) ∧
    (∀ f, f ∈ v4_removed_invalid fields ↔
      (f ∈ fields ∧ fieldsV4_lookup f = none)) ∧
    (∀ f, f ∈ v4_removed_inapplicable fields ts ↔
      (f ∈ fields ∧ (∃ s, fieldsV4_lookup f = some s) ∧ v4_keep ts f = false)) := by
  refine ⟨process_v3_fields_list_eq_filter fields endpoint, ?_, ?_, ?_,
    process_v4_fields_eq_filter fields ts hts, ?_, ?_⟩
  · unfold process_v3_fields
    rw [process_v3_fields_list_eq_filter]
  · intro f
    unfold v3_removed_invalid pySetDiff
    simp only [List.mem_filter, List.mem_dedup, decide_eq_true_eq]
    cases hl : fieldsV3_lookup f <;> simp [hl, List.mem_filter]
  · intro f
    unfold v3_removed_inapplicable pySetDiff
    rw [process_v3_fields_list_eq_filter]
    simp only [List.mem_filter, List.mem_dedup, decide_eq_true_eq]
    cases hl : fieldsV3_lookup f <;> simp [hl, List.mem_filter, v3_keep] <;> tauto
  · intro f
    unfold v4_removed_invalid pySetDiff
    simp only [List.mem_filter, List.mem_dedup, decide_eq_true_eq]
    cases hl : fieldsV4_lookup f <;> simp [hl, List.mem_filter]
  · intro f
    unfold v4_removed_inapplicable
    rw [process_v4_fields_eq_filter fields ts hts]
    unfold pySetDiff
    simp only [List.mem_filter, List.mem_dedup, decide_eq_true_eq]
    cases hl : fieldsV4_lookup f <;> simp [hl, List.mem_filter] <;> tauto

theorem c3_filter_output_and_reports_witness :
    process_v3_fields_list ["temp", "bogus", "precipitation_accumulation"] "realtime"
      = ["temp"] ∧
    ("bogus" ∈ v3_removed_invalid ["temp", "bogus", "precipitation_accumulation"] ↔
      ("bogus" ∈ (["temp", "bogus", "precipitation_accumulation"] : List String) ∧
        fieldsV3_lookup "bogus" = none)) ∧
    process_v4_fields ["hailBinary"] 86400 = .ok [] :=
  ⟨by
    rw [(c3_filter_output_and_reports ["temp", "bogus", "precipitation_accumulation"]
      "realtime" 0 (by decide)).1]
    decide,
   (c3_filter_output_and_reports ["temp", "bogus", "precipitation_accumulation"]
      "realtime" 0 (by decide)).2.2.1 "bogus",
   by
    rw [(c3_filter_output_and_reports ["hailBinary"] "realtime" 86400
      (by decide)).2.2.2.2.1]
    decide⟩

/-- C9: the field filters are idempotent: a list whose members are all in
the catalog and applicable to the target passes through both filters
unchanged, the v4 filter applied to its own output returns that output,
and the v3 filtering stage applied to its own output returns that
output. -/
theorem c9_filter_idempotent :
    (∀ (fields : List String) (ts : Int), v4_timestep_known ts = true →
      (∀ f ∈ fields, v4_keep ts f = true) →
      process_v4_fields fields ts = .ok fields) ∧
    (∀ (fields out : List String) (ts : Int),
      process_v4_fields fields ts = .ok out →
      process_v4_fields out ts = .ok out) ∧
    (∀ (fields : List String) (endpoint : String),
      (∀ f ∈ fields, v3_keep endpoint f = true) →
      process_v3_fields_list fields endpoint = fields) ∧
    (∀ (fields : List String) (endpoint : String),
      process_v3_fields_list (process_v3_fields_list fields endpoint) endpoint
        = process_v3_fields_list fields endpoint) := by
  refine ⟨?_, ?_, ?_, ?_⟩
  · intro fields ts hts hall
    rw [process_v4_fields_eq_filter fields ts hts, List.filter_eq_self.mpr hall]
  · intro fields out ts hout
    cases hts : v4_timestep_known ts
    · rw [process_v4_fields_err fields ts hts] at hout
      exact absurd hout (by simp)
    · rw [process_v4_fields_eq_filter fields ts hts] at hout
      have hfo : List.filter (v4_keep ts) fields = out := by simpa using hout
      rw [← hfo, process_v4_fields_eq_filter _ ts hts]
      exact congrArg Except.ok
        (List.filter_eq_self.mpr fun a ha => (List.mem_filter.mp ha).2)
  · intro fields endpoint hall
    rw [process_v3_fields_list_eq_filter, List.filter_eq_self.mpr hall]
  · intro fields endpoint
    rw [process_v3_fields_list_eq_filter (process_v3_fields_list fields endpoint),
      process_v3_fields_list_eq_filter fields]
    exact List.filter_eq_self.mpr fun a ha => (List.mem_filter.mp ha).2

theorem c9_filter_idempotent_witness :
    process_v4_fields ["temperature"] 86400 = .ok ["temperature"] ∧
    process_v4_fields ["fireIndex"] (-60) = .ok ["fireIndex"] ∧
    process_v3_fields_list ["temp"] "realtime" = ["temp"] :=
  ⟨c9_filter_idempotent.1 ["temperature"] 86400 (by decide) (by decide),
   c9_filter_idempotent.2.1 ["fireIndex", "precipitationProbability"] ["fireIndex"]
     (-60) (by decide),
   c9_filter_idempotent.2.2.1 ["temp"] "realtime" (by decide)⟩

/-- C6 counterexample: the legacy client issues the GET with
aiohttp raise_for_status, which raises only for statuses of 400 and
above, so a 204 response is returned as success with the parsed payload
instead of the Unknown failure the claim requires for every non-200
status. -/
theorem c6_v3_success_below_400_counterexample :
    climacellV3_classify (.response 204 (0 : Nat)) = .success 0 ∧
    spec_classify (.response 204 (0 : Nat)) = .unknownErr :=
  ⟨rfl, rfl⟩

/-- C6 (amended): the modern client classifies every response exactly as
the specified mapping; the legacy client agrees with the mapping on
status 200, on every status of 400 and above, and on connection
failures, but returns success with the parsed payload for any other
status below 400. -/
theorem c6_classification (α : Type) :
    (∀ r : HttpResult α, climacellV4_classify r = spec_classify r) ∧
    (∀ (status : Nat) (payload : α), 400 ≤ status →
      climacellV3_classify (.response status payload)
        = spec_classify (.response status payload)) ∧
    (∀ payload : α,
      climacellV3_classify (.response 200 payload) = .success payload) ∧
    (∀ (status : Nat) (payload : α), status < 400 →
      climacellV3_classify (.response status payload) = .success payload) ∧
    climacellV3_classify (.connectionError : HttpResult α) = .cantConnect := by
  refine ⟨?_, ?_, ?_, ?_, rfl⟩
  · intro r
    cases r <;> rfl
  · intro status payload h
    have h200 : (status == 200) = false := by simp; omega
    simp [climacellV3_classify, spec_classify, h, h200]
  · intro payload
    rfl
  · intro status payload h
    have hn : ¬(status ≥ 400) := by omega
    simp [climacellV3_classify, hn]

theorem c6_classification_witness :
    climacellV3_classify (.response 429 (7 : Nat))
      = spec_classify (.response 429 (7 : Nat)) ∧
    climacellV3_classify (.response 204 (7 : Nat)) = .success 7 :=
  ⟨(c6_classification Nat).2.1 429 7 (by decide),
   (c6_classification Nat).2.2.2.1 204 7 (by decide)⟩

/-- C7: on a list of catalog fields, measurement expansion maps each
field with two or more declared measurements to one entry per
measurement suffix appended to the field name, and passes each field
with zero or one measurement through unchanged, preserving request
order. -/
theorem c7_measurement_expansion (fields : List String)
    (h : ∀ f ∈ fields, (fieldsV4_lookup f).isSome = true) :
    convert_fields_to_measurements fields = .ok (fields.flatMap (fun f =>
      match fieldsV4_lookup f with
      | some s =>
        if s.measurements.length < 2 then [f]
        else s.measurements.map (fun m => f ++ m)
      | none => [])) := by
  induction fields with
  | nil => rfl
  | cons f rest ih =>
    have hf := h f (List.mem_cons_self f rest)
    have hrest : ∀ g ∈ rest, (fieldsV4_lookup g).isSome = true :=
      fun g hg => h g (List.mem_cons_of_mem f hg)
    cases hl : fieldsV4_lookup f with
    | none => simp [hl] at hf
    | some s =>
      unfold convert_fields_to_measurements
      rw [hl, ih hrest]
      by_cases hm : s.measurements.length < 2 <;> simp [hm, hl]

theorem c7_measurement_expansion_witness :
    convert_fields_to_measurements
      ["temperature", "precipitationType", "windDirection"]
      = .ok ["temperatureMin", "temperatureMax", "temperatureAvg",
        "precipitationType", "windDirection"] := by
  rw [c7_measurement_expansion _ (by decide)]
  rfl

/-- C8 counterexample: the legacy client rejects the selector imperial at
constructor time with ValueError while the modern client accepts it and
accepts its synonym us, so the synonym pairs are not accepted by both
clients. -/
theorem c8_v3_rejects_imperial_counterexample :
    climacellV3_unit_system "imperial" = .error .valueError ∧
    climacellV4_unit_system "imperial" = .ok "imperial" ∧
    climacellV3_unit_system "us" = .ok "us" :=
  ⟨rfl, rfl, rfl⟩

/-- C8 (amended): the modern client accepts metric, imperial, si and us
case-insensitively, mapping si to metric and us to imperial so each
synonym pair yields the same effective unit system, and rejects every
other selector with ValueError; the legacy client accepts only us and si
case-insensitively and rejects every other selector, including imperial
and metric. -/
theorem c8_unit_system (u : String) :
    (climacellV4_unit_system "us" = .ok "imperial" ∧
     climacellV4_unit_system "US" = .ok "imperial" ∧
     climacellV4_unit_system "imperial" = .ok "imperial" ∧
     climacellV4_unit_system "Imperial" = .ok "imperial" ∧
     climacellV4_unit_system "si" = .ok "metric" ∧
     climacellV4_unit_system "SI" = .ok "metric" ∧
     climacellV4_unit_system "metric" = .ok "metric" ∧
     climacellV3_unit_system "us" = .ok "us" ∧
     climacellV3_unit_system "US" = .ok "us" ∧
     climacellV3_unit_system "si" = .ok "si" ∧
     climacellV3_unit_system "imperial" = .error .valueError ∧
     climacellV3_unit_system "metric" = .error .valueError) ∧
    (pyLower u ∉ (["metric", "imperial", "si", "us"] : List String) →
      climacellV4_unit_system u = .error .valueError) ∧
    (pyLower u ∉ (["us", "si"] : List String) →
      climacellV3_unit_system u = .error .valueError) := by
  refine ⟨by decide, ?_, ?_⟩
  · intro h
    simp only [List.mem_cons, List.not_mem_nil, or_false, not_or] at h
    obtain ⟨h1, h2, h3, h4⟩ := h
    simp [climacellV4_unit_system, h1, h2, h3, h4]
  · intro h
    simp only [List.mem_cons, List.not_mem_nil, or_false, not_or] at h
    obtain ⟨h1, h2⟩ := h
    simp [climacellV3_unit_system, h1, h2]

theorem c8_unit_system_witness :
    climacellV4_unit_system "feet" = .error .valueError ∧
    climacellV3_unit_system "feet" = .error .valueError :=
  ⟨(c8_unit_system "feet").2.1 (by decide),
   (c8_unit_system "feet").2.2 (by decide)⟩

/-- C10: `available_fields` (with no type restriction) agrees with
`process_v4_fields` applied to the whole catalog at the daily, hourly,
sub-hourly and negative timesteps, but diverges at the zero (current)
timestep: there the source evaluates FIELDS_V4[field][0], subscripting
the entry dict with an integer key, so `available_fields` raises
`KeyError` while `process_v4_fields` keeps every field whose bounds
straddle zero (the whole catalog). -/
theorem c10_available_fields_agreement :
    available_fields 86400 none = process_v4_fields fieldNamesV4 86400 ∧
    available_fields 3600 none = process_v4_fields fieldNamesV4 3600 ∧
    available_fields 1800 none = process_v4_fields fieldNamesV4 1800 ∧
    available_fields 900 none = process_v4_fields fieldNamesV4 900 ∧
    available_fields 300 none = process_v4_fields fieldNamesV4 300 ∧
    available_fields 60 none = process_v4_fields fieldNamesV4 60 ∧
    available_fields (-3600) none = process_v4_fields fieldNamesV4 (-3600) ∧
    available_fields 0 none = .error .keyError ∧
    process_v4_fields fieldNamesV4 0 = .ok fieldNamesV4 := by
  refine ⟨?_, ?_, ?_, ?_, ?_, ?_, ?_, ?_, ?_⟩ <;> decide
